import Mathlib

/-!
Shallow embedding of the mlflow-rs client library (src/lib.rs, src/client.rs,
src/err.rs, src/config.rs) and proofs of its specified properties.

Modelling conventions:
- Rust `Result<T, MLFlowError>` becomes `Except MLFlowError T`.
- An HTTP exchange is external to the library, so every operation that in the
  source calls `.send()` takes the outcome of that call as an explicit
  argument: `Except String (HttpResponse α)`, where the `String` of the error
  case is the transport error's display text (`e.to_string()`), and
  `HttpResponse α` carries the status code together with the outcome of
  `r.json::<α>()` on its body (`Except String α`, the error case being the
  decode failure's display text). Operations that perform no HTTP call take no
  such argument.
- `e.to_string()` on `MLFlowError` follows the `#[error("...")]` attributes of
  the `thiserror` derive in the source.
-/

/-- Error taxonomy of the library, from `enum MLFlowError` in src/err.rs
(identical to the copy in src/lib.rs, plus the `ConfigError` variant used by
src/config.rs). -/
inductive MLFlowError where
  | ExperimentBuilderError (msg : String)
  | ExperimentNotFound (msg : String)
  | ClientError (msg : String)
  | ResourceAlreadyExists (msg : String)
  | UnknownError (msg : String)
  | ConfigError (msg : String)
deriving Repr, DecidableEq

/-- Display text of an error, following the `#[error("...")]` attributes of
the `thiserror` derive: `ExperimentNotFound` and `ConfigError` display the
bare message, the others prepend their variant name. -/
def MLFlowError.toString : MLFlowError → String
  | .ExperimentBuilderError msg => "ExperimentBuilderError: " ++ msg
  | .ExperimentNotFound msg => msg
  | .ClientError msg => "ClientError: " ++ msg
  | .ResourceAlreadyExists msg => "ResourceAlreadyExists: " ++ msg
  | .UnknownError msg => "UnknownError: " ++ msg
  | .ConfigError msg => msg

/-- Result alias from src/lib.rs: `pub type MLFlowResult<T> = Result<T, MLFlowError>`. -/
abbrev MLFlowResult (α : Type) := Except MLFlowError α

/-- Key/value tag from `struct ExperimentTag` in src/lib.rs. -/
structure ExperimentTag where
  key : String
  value : String
deriving Repr, DecidableEq

/-- Conversion `impl From<(&str, &str)> for ExperimentTag` in src/lib.rs:
builds the tag from the tuple's components. -/
def ExperimentTag.fromTuple : String × String → ExperimentTag
  | (k, v) => { key := k, value := v }

/-- REST client handle from `struct MLFLowRestClient`: the `reqwest` client
object carries no observable state for our purposes, so only the configured
`host` remains. -/
structure MLFLowRestClient where
  host : String
deriving Repr, DecidableEq

/-- Constructor `MLFLowRestClient::new`: stores the host string. -/
def MLFLowRestClient.new (host : String) : MLFLowRestClient :=
  { host := host }

/-- Domain entity from `struct Experiment` in src/lib.rs. The `client` field
is retained from the source (it is skipped for serialization there but present
in memory). -/
structure Experiment where
  experiment_id : Option String
  name : String
  artifact_location : Option String
  tags : List ExperimentTag
  client : MLFLowRestClient
deriving Repr, DecidableEq

/-- Accessor from `impl ExperimentIdentifier for Experiment`. -/
def Experiment.experimentIdentifier (e : Experiment) : Option String :=
  e.experiment_id

/-- Response record `struct CreateExperimentResponse { experiment_id: String }`. -/
structure CreateExperimentResponse where
  experiment_id : String
deriving Repr, DecidableEq

/-- Response record `struct GetExperimentResponse { experiment: Experiment }`. -/
structure GetExperimentResponse where
  experiment : Experiment
deriving Repr, DecidableEq

/-- An HTTP response as the library observes it: its status code, and the
outcome of decoding its body as JSON into `α` (`r.json::<α>()`); the error
case holds the decode failure's display text. -/
structure HttpResponse (α : Type) where
  status : Nat
  body : Except String α

/-- Predicate `StatusCode::is_success()` of the `http` crate used by
`reqwest`: true exactly for the 2xx range. -/
def statusIsSuccess (code : Nat) : Bool :=
  200 ≤ code && code < 300

/-- Shared response classification `MLFLowRestClient::_process_get` from
src/client.rs lines 41-68 (same code at src/lib.rs lines 87-114): transport
failure and decode failure map to `UnknownError` with the failure's text,
2xx with a decoding body succeeds, 404 maps to `ExperimentNotFound` with a
fixed message, anything else to `UnknownError` with a fixed message. -/
def MLFLowRestClient._process_get (_c : MLFLowRestClient)
    (result : Except String (HttpResponse GetExperimentResponse)) :
    MLFlowResult GetExperimentResponse :=
  match result with
  | Except.ok r =>
    if statusIsSuccess r.status then
      match r.body with
      | Except.ok res => Except.ok res
      | Except.error e => Except.error (MLFlowError.UnknownError e)
    else if r.status == 404 then
      Except.error (MLFlowError.ExperimentNotFound "experiment was not found")
    else
      Except.error (MLFlowError.UnknownError "error finding experiment")
  | Except.error e => Except.error (MLFlowError.UnknownError e)

/-- Retrieval by identifier, `get_experiment_by_id`: sends a GET carrying the
id as a query parameter (the exchange outcome is the `sendResult` argument)
and classifies the response with `_process_get`. -/
def MLFLowRestClient.get_experiment_by_id (c : MLFLowRestClient) (_id : String)
    (sendResult : Except String (HttpResponse GetExperimentResponse)) :
    MLFlowResult GetExperimentResponse :=
  c._process_get sendResult

/-- Retrieval by name, `get_experiment_by_name`: sends a GET carrying the name
as a query parameter (the exchange outcome is the `sendResult` argument) and
classifies the response with `_process_get`. -/
def MLFLowRestClient.get_experiment_by_name (c : MLFLowRestClient) (_name : String)
    (sendResult : Except String (HttpResponse GetExperimentResponse)) :
    MLFlowResult GetExperimentResponse :=
  c._process_get sendResult

/-- Creation, `MLFlowClient::create_experiment` for `MLFLowRestClient`
(src/client.rs lines 72-94): POSTs the experiment as JSON; transport failure
and decode failure map to `UnknownError` with the failure's text, a 2xx with a
decoding body succeeds, any other status maps to `UnknownError` with the fixed
message "Could not create experiment". -/
def MLFLowRestClient.create_experiment (_c : MLFLowRestClient) (_experiment : Experiment)
    (sendResult : Except String (HttpResponse CreateExperimentResponse)) :
    MLFlowResult CreateExperimentResponse :=
  match sendResult with
  | Except.ok r =>
    if statusIsSuccess r.status then
      match r.body with
      | Except.ok res => Except.ok res
      | Except.error e => Except.error (MLFlowError.UnknownError e)
    else
      Except.error (MLFlowError.UnknownError "Could not create experiment")
  | Except.error e => Except.error (MLFlowError.UnknownError e)

/-- Configuration object for experiment creation, `struct ExperimentBuilder`
in src/lib.rs: a name, an optional artifact location, a tag list and the REST
client to use. -/
structure ExperimentBuilder where
  name : String
  artifact_location : Option String
  tags : List ExperimentTag
  client : MLFLowRestClient
deriving Repr, DecidableEq

/-- Constructor `ExperimentBuilder::new` (src/lib.rs lines 198-209): rejects
the empty name with `ExperimentBuilderError` before doing anything else, and
otherwise produces a builder with no artifact location, no tags and a client
pointing at the local default endpoint. It performs no HTTP exchange, hence
takes no `sendResult` argument. -/
def ExperimentBuilder.new (name : String) : MLFlowResult ExperimentBuilder :=
  if name.isEmpty then
    Except.error (MLFlowError.ExperimentBuilderError "name cannot be empty")
  else
    Except.ok
      { name := name
        artifact_location := none
        tags := []
        client := MLFLowRestClient.new "http://localhost:5000" }

/-- Fluent method `ExperimentBuilder::with_tag`: appends one tag. -/
def ExperimentBuilder.with_tag (b : ExperimentBuilder) (tag : ExperimentTag) :
    ExperimentBuilder :=
  { b with tags := b.tags ++ [tag] }

/-- Fluent method `ExperimentBuilder::with_tags`: replaces the tag list. -/
def ExperimentBuilder.with_tags (b : ExperimentBuilder) (tags : List ExperimentTag) :
    ExperimentBuilder :=
  { b with tags := tags }

/-- Fluent method `ExperimentBuilder::with_rest_client`: replaces the client. -/
def ExperimentBuilder.with_rest_client (b : ExperimentBuilder) (client : MLFLowRestClient) :
    ExperimentBuilder :=
  { b with client := client }

/-- Experiment value constructed inside `ExperimentBuilder::build` (the
`let mut e = Experiment { ... }` at src/lib.rs lines 229-235) and passed to
`create_experiment`: identifier absent, the other fields as configured. -/
def ExperimentBuilder.sentExperiment (b : ExperimentBuilder) : Experiment :=
  { experiment_id := none
    name := b.name
    artifact_location := b.artifact_location
    tags := b.tags
    client := b.client }

/-- Terminal `ExperimentBuilder::build` (src/lib.rs lines 226-246): builds the
experiment with absent identifier, POSTs it via `create_experiment` (the
function `send` gives the HTTP exchange outcome for the experiment sent), on
success stores the returned identifier into the experiment, and passes any
client error through unchanged. -/
def ExperimentBuilder.build (b : ExperimentBuilder)
    (send : Experiment → Except String (HttpResponse CreateExperimentResponse)) :
    MLFlowResult Experiment :=
  let e := b.sentExperiment
  match b.client.create_experiment e (send e) with
  | Except.ok resp => Except.ok { e with experiment_id := some resp.experiment_id }
  | Except.error err => Except.error err

/-- Tagged identifier `enum ExperimentIdentifierType` in src/lib.rs. -/
inductive ExperimentIdentifierType where
  | ById (id : String)
  | ByName (name : String)

/-- Loader `struct ExperimentLoader` in src/lib.rs: an optional REST client. -/
structure ExperimentLoader where
  client : Option MLFLowRestClient

/-- Fluent method `ExperimentLoader::with_client`. -/
def ExperimentLoader.with_client (l : ExperimentLoader) (client : MLFLowRestClient) :
    ExperimentLoader :=
  { l with client := some client }

/-- Terminal `ExperimentLoader::load` (src/lib.rs lines 265-280): falls back
to the local default client when none is set, dispatches on the identifier
variant, and extracts the experiment on success. On error, the `ById` arm
re-wraps the client error as `UnknownError` of its display text while the
`ByName` arm passes it through unchanged. -/
def ExperimentLoader.load (l : ExperimentLoader)
    (experiment_identifier : ExperimentIdentifierType)
    (sendResult : Except String (HttpResponse GetExperimentResponse)) :
    MLFlowResult Experiment :=
  let client := l.client.getD (MLFLowRestClient.new "http://localhost:5000")
  match experiment_identifier with
  | ExperimentIdentifierType.ById id =>
    match client.get_experiment_by_id id sendResult with
    | Except.ok resp => Except.ok resp.experiment
    | Except.error e => Except.error (MLFlowError.UnknownError e.toString)
  | ExperimentIdentifierType.ByName name =>
    match client.get_experiment_by_name name sendResult with
    | Except.ok resp => Except.ok resp.experiment
    | Except.error e => Except.error e

/-- Finished configuration `struct Config` in src/config.rs: a validated
tracking-server URI paired with a constructed client. -/
structure Config where
  tracking_server_uri : String
  client : MLFLowRestClient
deriving Repr, DecidableEq

/-- Accessor `Config::get_tracking_server_uri`. -/
def Config.get_tracking_server_uri (c : Config) : String :=
  c.tracking_server_uri

/-- Builder `struct ConfigBuilder` in src/config.rs: an optional URI. -/
structure ConfigBuilder where
  tracking_server_uri : Option String
deriving Repr, DecidableEq

/-- Default constructor `ConfigBuilder::default` (src/config.rs lines 29-33):
presets the URI to the local default endpoint. -/
def ConfigBuilder.default : ConfigBuilder :=
  { tracking_server_uri := some "http://localhost:5000" }

/-- Fluent method `ConfigBuilder::with_tracking_server_uri`: stores the URI. -/
def ConfigBuilder.with_tracking_server_uri (b : ConfigBuilder) (uri : String) :
    ConfigBuilder :=
  { b with tracking_server_uri := some uri }

/-- Validation `ConfigBuilder::try_build` (src/config.rs lines 44-63): an
explicitly empty URI fails with `ConfigError "empty tracking server uri"`, an
unset URI with `ConfigError "tracking server uri was not set"`, and otherwise
the configuration holds the URI and a client constructed from it. -/
def ConfigBuilder.try_build (b : ConfigBuilder) : MLFlowResult Config :=
  match b.tracking_server_uri with
  | some uri =>
    if uri.isEmpty then
      Except.error (MLFlowError.ConfigError "empty tracking server uri")
    else
      Except.ok { tracking_server_uri := uri, client := MLFLowRestClient.new uri }
  | none => Except.error (MLFlowError.ConfigError "tracking server uri was not set")

/-- C1: for every HTTP response with status 404 received by
`get_experiment_by_id` or `get_experiment_by_name`, the operation returns the
experiment-not-found error with message exactly "experiment was not found",
regardless of the response body's content. -/
theorem c1_get_404_not_found (c : MLFLowRestClient) (id name : String)
    (r : HttpResponse GetExperimentResponse) (h : r.status = 404) :
    c.get_experiment_by_id id (Except.ok r)
      = Except.error (MLFlowError.ExperimentNotFound "experiment was not found") ∧
    c.get_experiment_by_name name (Except.ok r)
      = Except.error (MLFlowError.ExperimentNotFound "experiment was not found") := by
  constructor <;>
    simp [MLFLowRestClient.get_experiment_by_id, MLFLowRestClient.get_experiment_by_name,
      MLFLowRestClient._process_get, statusIsSuccess, h]

/-- Witness for C1 at status 404 with an undecodable body. -/
theorem c1_get_404_not_found_witness :
    (MLFLowRestClient.new "http://localhost:5000").get_experiment_by_id "7"
        (Except.ok ⟨404, Except.error "irrelevant body"⟩)
      = Except.error (MLFlowError.ExperimentNotFound "experiment was not found") ∧
    (MLFLowRestClient.new "http://localhost:5000").get_experiment_by_name "exp"
        (Except.ok ⟨404, Except.error "irrelevant body"⟩)
      = Except.error (MLFlowError.ExperimentNotFound "experiment was not found") :=
  c1_get_404_not_found (MLFLowRestClient.new "http://localhost:5000") "7" "exp"
    ⟨404, Except.error "irrelevant body"⟩ rfl

/-- C2: for every HTTP response whose status is neither 2xx nor 404 received
by `get_experiment_by_id` or `get_experiment_by_name`, the operation returns
an unknown-error with message exactly "error finding experiment". -/
theorem c2_get_other_status_unknown (c : MLFLowRestClient) (id name : String)
    (r : HttpResponse GetExperimentResponse)
    (h2xx : statusIsSuccess r.status = false) (h404 : r.status ≠ 404) :
    c.get_experiment_by_id id (Except.ok r)
      = Except.error (MLFlowError.UnknownError "error finding experiment") ∧
    c.get_experiment_by_name name (Except.ok r)
      = Except.error (MLFlowError.UnknownError "error finding experiment") := by
  constructor <;>
    simp [MLFLowRestClient.get_experiment_by_id, MLFLowRestClient.get_experiment_by_name,
      MLFLowRestClient._process_get, h2xx, h404]

/-- Witness for C2 at status 500. -/
theorem c2_get_other_status_unknown_witness :
    (MLFLowRestClient.new "http://localhost:5000").get_experiment_by_id "7"
        (Except.ok ⟨500, Except.error "server error body"⟩)
      = Except.error (MLFlowError.UnknownError "error finding experiment") ∧
    (MLFLowRestClient.new "http://localhost:5000").get_experiment_by_name "exp"
        (Except.ok ⟨500, Except.error "server error body"⟩)
      = Except.error (MLFlowError.UnknownError "error finding experiment") :=
  c2_get_other_status_unknown (MLFLowRestClient.new "http://localhost:5000") "7" "exp"
    ⟨500, Except.error "server error body"⟩ (by decide) (by decide)

/-- C3: for every HTTP 2xx response received by `get_experiment_by_id` or
`get_experiment_by_name`, a decoding body yields success with the decoded
record and a failing decode yields an unknown-error carrying the decode
failure's description. -/
theorem c3_get_2xx_decode (c : MLFLowRestClient) (id name : String)
    (r : HttpResponse GetExperimentResponse) (h : statusIsSuccess r.status = true) :
    c.get_experiment_by_id id (Except.ok r)
      = (match r.body with
         | Except.ok resp => Except.ok resp
         | Except.error msg => Except.error (MLFlowError.UnknownError msg)) ∧
    c.get_experiment_by_name name (Except.ok r)
      = (match r.body with
         | Except.ok resp => Except.ok resp
         | Except.error msg => Except.error (MLFlowError.UnknownError msg)) := by
  constructor <;>
    simp [MLFLowRestClient.get_experiment_by_id, MLFLowRestClient.get_experiment_by_name,
      MLFLowRestClient._process_get, h]

/-- Witness for C3 at status 200 with a body decoding to one experiment. -/
theorem c3_get_2xx_decode_witness :
    (MLFLowRestClient.new "http://localhost:5000").get_experiment_by_id "7"
        (Except.ok ⟨200, Except.ok ⟨⟨some "7", "exp", none, [],
          MLFLowRestClient.new "http://localhost:5000"⟩⟩⟩)
      = Except.ok ⟨⟨some "7", "exp", none, [],
          MLFLowRestClient.new "http://localhost:5000"⟩⟩ ∧
    (MLFLowRestClient.new "http://localhost:5000").get_experiment_by_name "exp"
        (Except.ok ⟨200, Except.ok ⟨⟨some "7", "exp", none, [],
          MLFLowRestClient.new "http://localhost:5000"⟩⟩⟩)
      = Except.ok ⟨⟨some "7", "exp", none, [],
          MLFLowRestClient.new "http://localhost:5000"⟩⟩ :=
  c3_get_2xx_decode (MLFLowRestClient.new "http://localhost:5000") "7" "exp"
    ⟨200, Except.ok ⟨⟨some "7", "exp", none, [],
      MLFLowRestClient.new "http://localhost:5000"⟩⟩⟩ rfl

/-- C4: `create_experiment` never returns the not-found error kind: every
failure (transport failure, non-2xx status, or 2xx with a failing decode)
is returned as the unknown-error kind carrying a message. -/
theorem c4_create_always_unknown (c : MLFLowRestClient) (experiment : Experiment)
    (sendResult : Except String (HttpResponse CreateExperimentResponse)) (err : MLFlowError)
    (h : c.create_experiment experiment sendResult = Except.error err) :
    ∃ msg, err = MLFlowError.UnknownError msg := by
  cases sendResult with
  | error e =>
    simp only [MLFLowRestClient.create_experiment] at h
    exact ⟨e, (Except.error.inj h).symm⟩
  | ok r =>
    simp only [MLFLowRestClient.create_experiment] at h
    cases hs : statusIsSuccess r.status with
    | true =>
      rw [hs] at h
      simp only [if_true] at h
      cases hb : r.body with
      | ok res => rw [hb] at h; exact absurd h (by simp)
      | error msg => rw [hb] at h; exact ⟨msg, (Except.error.inj h).symm⟩
    | false =>
      rw [hs, if_neg (by decide)] at h
      exact ⟨"Could not create experiment", (Except.error.inj h).symm⟩

/-- Witness for C4 at a transport failure. -/
theorem c4_create_always_unknown_witness :
    ∃ msg, MLFlowError.UnknownError "connection refused" = MLFlowError.UnknownError msg :=
  c4_create_always_unknown (MLFLowRestClient.new "http://localhost:5000")
    ⟨none, "exp", none, [], MLFLowRestClient.new "http://localhost:5000"⟩
    (Except.error "connection refused") (MLFlowError.UnknownError "connection refused") rfl

/-- C5: for every error result from the underlying client,
`ExperimentLoader.load` with the by-name identifier returns that error
unchanged while load with the by-ID identifier returns an unknown-error
wrapping the original error's description; on client success either variant
returns the contained experiment. -/
theorem c5_loader_error_asymmetry (l : ExperimentLoader) (id name : String)
    (sendResult : Except String (HttpResponse GetExperimentResponse))
    (e : MLFlowError) (resp : GetExperimentResponse) :
    ((l.client.getD (MLFLowRestClient.new "http://localhost:5000")).get_experiment_by_name
        name sendResult = Except.error e →
      l.load (ExperimentIdentifierType.ByName name) sendResult = Except.error e) ∧
    ((l.client.getD (MLFLowRestClient.new "http://localhost:5000")).get_experiment_by_id
        id sendResult = Except.error e →
      l.load (ExperimentIdentifierType.ById id) sendResult
        = Except.error (MLFlowError.UnknownError e.toString)) ∧
    ((l.client.getD (MLFLowRestClient.new "http://localhost:5000")).get_experiment_by_name
        name sendResult = Except.ok resp →
      l.load (ExperimentIdentifierType.ByName name) sendResult
        = Except.ok resp.experiment) ∧
    ((l.client.getD (MLFLowRestClient.new "http://localhost:5000")).get_experiment_by_id
        id sendResult = Except.ok resp →
      l.load (ExperimentIdentifierType.ById id) sendResult
        = Except.ok resp.experiment) := by
  refine ⟨fun h => ?_, fun h => ?_, fun h => ?_, fun h => ?_⟩ <;>
    simp [ExperimentLoader.load, h]

/-- Witness for C5: a 404 response surfaces as not-found through the by-name
path and as unknown-error with the same message through the by-ID path. -/
theorem c5_loader_error_asymmetry_witness :
    (ExperimentLoader.mk none).load (ExperimentIdentifierType.ByName "exp")
        (Except.ok ⟨404, Except.error "irrelevant"⟩)
      = Except.error (MLFlowError.ExperimentNotFound "experiment was not found") ∧
    (ExperimentLoader.mk none).load (ExperimentIdentifierType.ById "7")
        (Except.ok ⟨404, Except.error "irrelevant"⟩)
      = Except.error (MLFlowError.UnknownError "experiment was not found") :=
  ⟨(c5_loader_error_asymmetry (ExperimentLoader.mk none) "7" "exp"
      (Except.ok ⟨404, Except.error "irrelevant"⟩)
      (MLFlowError.ExperimentNotFound "experiment was not found")
      ⟨⟨none, "x", none, [], MLFLowRestClient.new "h"⟩⟩).1 rfl,
   (c5_loader_error_asymmetry (ExperimentLoader.mk none) "7" "exp"
      (Except.ok ⟨404, Except.error "irrelevant"⟩)
      (MLFlowError.ExperimentNotFound "experiment was not found")
      ⟨⟨none, "x", none, [], MLFLowRestClient.new "h"⟩⟩).2.1 rfl⟩

/-- C6: for every non-empty name `ExperimentBuilder.new` returns a builder
successfully; for the empty name it returns the experiment-builder-validation
error. In either case no HTTP exchange happens: the embedding of `new` takes
no exchange outcome and its result is fully determined by the name. -/
theorem c6_builder_new_validation (name : String) :
    (name.isEmpty = false →
      ExperimentBuilder.new name = Except.ok
        { name := name, artifact_location := none, tags := [],
          client := MLFLowRestClient.new "http://localhost:5000" }) ∧
    (name.isEmpty = true →
      ExperimentBuilder.new name
        = Except.error (MLFlowError.ExperimentBuilderError "name cannot be empty")) := by
  constructor <;> intro h <;> simp [ExperimentBuilder.new, h]

/-- Witness for C6 at a non-empty and at the empty name. -/
theorem c6_builder_new_validation_witness :
    ExperimentBuilder.new "my-ml-experiment" = Except.ok
      { name := "my-ml-experiment", artifact_location := none, tags := [],
        client := MLFLowRestClient.new "http://localhost:5000" } ∧
    ExperimentBuilder.new ""
      = Except.error (MLFlowError.ExperimentBuilderError "name cannot be empty") :=
  ⟨(c6_builder_new_validation "my-ml-experiment").1 rfl,
   (c6_builder_new_validation "").2 rfl⟩

/-- C7: `ExperimentBuilder.build` sends an experiment with an absent
identifier and the configured name, artifact location and tags; when
`create_experiment` succeeds with identifier `resp.experiment_id`, the
returned experiment carries exactly that identifier and the configured fields;
when `create_experiment` fails, that error is returned unchanged. -/
theorem c7_build_experiment (b : ExperimentBuilder)
    (send : Experiment → Except String (HttpResponse CreateExperimentResponse))
    (resp : CreateExperimentResponse) (err : MLFlowError) :
    b.sentExperiment.experiment_id = none ∧
    b.sentExperiment.name = b.name ∧
    b.sentExperiment.artifact_location = b.artifact_location ∧
    b.sentExperiment.tags = b.tags ∧
    (b.client.create_experiment b.sentExperiment (send b.sentExperiment) = Except.ok resp →
      ∃ e, b.build send = Except.ok e ∧
        e.experiment_id = some resp.experiment_id ∧
        e.name = b.name ∧
        e.artifact_location = b.artifact_location ∧
        e.tags = b.tags) ∧
    (b.client.create_experiment b.sentExperiment (send b.sentExperiment) = Except.error err →
      b.build send = Except.error err) := by
  refine ⟨rfl, rfl, rfl, rfl, fun h => ?_, fun h => ?_⟩
  · exact ⟨{ b.sentExperiment with experiment_id := some resp.experiment_id },
      by simp [ExperimentBuilder.build, h], rfl, rfl, rfl, rfl⟩
  · simp [ExperimentBuilder.build, h]

/-- Witness for C7: a create response carrying identifier "abc123" yields an
experiment with that identifier and the configured fields. -/
theorem c7_build_experiment_witness :
    ∃ e, ExperimentBuilder.build
        ⟨"exp", some "s3://bucket", [⟨"k", "v"⟩], MLFLowRestClient.new "http://localhost:5000"⟩
        (fun _ => Except.ok ⟨200, Except.ok ⟨"abc123"⟩⟩) = Except.ok e ∧
      e.experiment_id = some "abc123" ∧
      e.name = "exp" ∧
      e.artifact_location = some "s3://bucket" ∧
      e.tags = [⟨"k", "v"⟩] :=
  (c7_build_experiment
      ⟨"exp", some "s3://bucket", [⟨"k", "v"⟩], MLFLowRestClient.new "http://localhost:5000"⟩
      (fun _ => Except.ok ⟨200, Except.ok ⟨"abc123"⟩⟩) ⟨"abc123"⟩
      (MLFlowError.UnknownError "unused")).2.2.2.2.1 rfl

/-- C8: setting the URI explicitly to the empty string makes `try_build` fail
with the config error "empty tracking server uri"; any non-empty URI builds a
configuration whose `get_tracking_server_uri` returns that same string. -/
theorem c8_config_uri_validation (b : ConfigBuilder) (uri : String) :
    (b.with_tracking_server_uri "").try_build
      = Except.error (MLFlowError.ConfigError "empty tracking server uri") ∧
    (uri.isEmpty = false →
      ∃ cfg, (b.with_tracking_server_uri uri).try_build = Except.ok cfg ∧
        cfg.get_tracking_server_uri = uri) := by
  refine ⟨rfl, fun h => ?_⟩
  exact ⟨{ tracking_server_uri := uri, client := MLFLowRestClient.new uri },
    by simp [ConfigBuilder.try_build, ConfigBuilder.with_tracking_server_uri, h], rfl⟩

/-- Witness for C8 at the empty URI and at a concrete non-empty URI. -/
theorem c8_config_uri_validation_witness :
    (ConfigBuilder.default.with_tracking_server_uri "").try_build
      = Except.error (MLFlowError.ConfigError "empty tracking server uri") ∧
    ∃ cfg, (ConfigBuilder.default.with_tracking_server_uri "http://localhost:5001").try_build
        = Except.ok cfg ∧
      cfg.get_tracking_server_uri = "http://localhost:5001" :=
  ⟨(c8_config_uri_validation ConfigBuilder.default "http://localhost:5001").1,
   (c8_config_uri_validation ConfigBuilder.default "http://localhost:5001").2 rfl⟩

/-- C9: the tag constructed from a tuple (k, v) has key k and value v. -/
theorem c9_tag_from_tuple (k v : String) :
    (ExperimentTag.fromTuple (k, v)).key = k ∧ (ExperimentTag.fromTuple (k, v)).value = v :=
  ⟨rfl, rfl⟩

/-- Folding any sequence of `with_tracking_server_uri` calls over a builder
whose URI is set leaves the URI set. -/
theorem foldl_with_uri_isSome (uris : List String) (b : ConfigBuilder)
    (h : b.tracking_server_uri.isSome = true) :
    (uris.foldl ConfigBuilder.with_tracking_server_uri b).tracking_server_uri.isSome
      = true := by
  induction uris generalizing b with
  | nil => exact h
  | cons u us ih => exact ih _ (by simp [ConfigBuilder.with_tracking_server_uri])

/-- C10: the default constructor presets the URI to "http://localhost:5000",
so after any sequence of `with_tracking_server_uri` calls the URI option is
set and `try_build` can never return the "tracking server uri was not set"
error through this interface. -/
theorem c10_unset_uri_branch_unreachable (uris : List String) :
    ConfigBuilder.default.tracking_server_uri = some "http://localhost:5000" ∧
    (uris.foldl ConfigBuilder.with_tracking_server_uri
      ConfigBuilder.default).tracking_server_uri.isSome = true ∧
    (uris.foldl ConfigBuilder.with_tracking_server_uri ConfigBuilder.default).try_build
      ≠ Except.error (MLFlowError.ConfigError "tracking server uri was not set") := by
  refine ⟨rfl, foldl_with_uri_isSome uris ConfigBuilder.default rfl, fun hcontra => ?_⟩
  obtain ⟨uri, hu⟩ := Option.isSome_iff_exists.mp
    (foldl_with_uri_isSome uris ConfigBuilder.default rfl)
  cases he : uri.isEmpty with
  | true => simp [ConfigBuilder.try_build, hu, he] at hcontra
  | false => simp [ConfigBuilder.try_build, hu, he] at hcontra
